import Mathlib

/-!
Verification of the AutoPunkte coupon-activation workflow.

This file gives a shallow embedding of the core control flow of the
repository in Lean 4 and proves the specified properties about it.
The embedded code comes from two Python files:

- src/payback_activator.py : the PaybackActivator class, whose method
  activate_coupons_for_partner drives the in-page activation script and
  normalizes its JSON result into a per-merchant outcome record, and whose
  method run performs the login steps, iterates over the configured
  merchants, aggregates outcomes, and captures post-run evidence;
- activate.py : the process entry point that validates credentials and maps
  the aggregate result to a process exit code.

Browser and network effects are modelled by an explicit environment record
stating, for each externally-failable step, whether the underlying channel
raises an exception (carrying its message), and by an event trace listing
the browser-level effects (start, navigations, screenshot, page dump) that
the run performs, in order.  A Python exception escaping the run is
modelled by the Except.error constructor.
-/

namespace AutoPunkte

/-! ## The in-page activation script (activate_coupons_for_partner, lines 88-226)

The JavaScript executed against the coupon page is embedded as a pure
function on a model of the DOM fragments it inspects.  A button is
modelled by its class-token list and text content; the nested shadow-root
lookups are modelled by Option-valued fields: the field is none exactly
when the corresponding querySelector chain in the script resolves to null
(for the coupon container, when none of its four alternative CSS paths
matches; the four paths are alternative routes to the same logical
container, so the model keeps only the resolved result).
-/

/-- A button inside a call-to-action shadow root: its class tokens and its
text content, as inspected by the activation script. -/
structure Button where
  classes : List String
  text : String
deriving DecidableEq, Repr

/-- The pbc-coupon-call-to-action element found inside the shadow
root of a coupon.  Its buttons are listed in document order; hasShadowRoot is false
when the element exposes no shadow root (script line 152 guard). -/
structure CallToAction where
  hasShadowRoot : Bool
  buttons : List Button
deriving DecidableEq, Repr

/-- A pbc-coupon element.  callToAction is the resolution of the two
call-to-action selectors inside the shadow root of the coupon (script lines
142-150); it is only consulted when hasShadowRoot is true. -/
structure Coupon where
  hasShadowRoot : Bool
  callToAction : Option CallToAction
deriving DecidableEq, Repr

/-- The shadow root of the coupon-center element.  publishedCoupons is the
list of pbc-coupon elements inside the published-coupons container, or
none when none of the four container selectors matches (script lines
112-129). -/
structure CouponCenterShadow where
  publishedCoupons : Option (List Coupon)
deriving DecidableEq, Repr

/-- The coupon page as inspected by the activation script.
couponCenterShadow is none exactly when the coupon-center element is
absent or exposes no shadow root (script line 92 guard). -/
structure Page where
  couponCenterShadow : Option CouponCenterShadow
deriving DecidableEq, Repr

/-- The value the script stores in window.activationResults.  Keys the
script leaves absent are modelled by their falsy defaults: error by none
and alreadyActivated by false (an absent key reads back as undefined,
which is falsy, and the Python side only tests truthiness). -/
structure ActivationResults where
  success : Bool
  error : Option String
  activated : Nat
  total : Nat
  alreadyActivated : Bool
deriving DecidableEq, Repr

/-- Class-token membership test, modelling a CSS class selector against the
class-token list of a button. -/
def hasClass (b : Button) (c : String) : Bool := b.classes.contains c

/-- Substring occurrence over character lists, used for the free-text
fallback of the activation-button lookup. -/
def containsSeq (needle : List Char) : List Char → Bool
  | [] => needle.isEmpty
  | c :: rest => needle.isPrefixOf (c :: rest) || containsSeq needle rest

/-- Selector button.coupon-call-to-action__button.coupon__activate-button.not-activated
(script selectors 1 and 2, which differ only in the div-child prefix and
coincide on the flat button-list model). -/
def matchesNotActivatedFull (b : Button) : Bool :=
  hasClass b "coupon-call-to-action__button" &&
    hasClass b "coupon__activate-button" && hasClass b "not-activated"

/-- Selector button.not-activated (script selector 3). -/
def matchesNotActivatedShort (b : Button) : Bool := hasClass b "not-activated"

/-- Selector button:not(.activated) (script selector 4). -/
def matchesNotActivatedPseudo (b : Button) : Bool := !(hasClass b "activated")

/-- Free-text fallback: the lower-cased text of the button contains the
substring aktivieren (script lines 170-179). -/
def textMentionsAktivieren (b : Button) : Bool :=
  containsSeq "aktivieren".toList b.text.toLower.toList

/-- The multi-tier activation-button lookup of the script (lines 154-179):
the four structural selectors are tried in order, then the free-text
fallback; the first button that resolves wins. -/
def findActivationButton (btns : List Button) : Option Button :=
  match btns.find? matchesNotActivatedFull with
  | some b => some b
  | none =>
    match btns.find? matchesNotActivatedShort with
    | some b => some b
    | none =>
      match btns.find? matchesNotActivatedPseudo with
      | some b => some b
      | none => btns.find? textMentionsAktivieren

/-- Whether the per-coupon body of the script (lines 137-214) finds and
clicks an activation button for this coupon, thereby incrementing
activatedCount.  The already-activated probe in the else branch is
diagnostic logging only and does not affect the stored results. -/
def couponClickAttempt (c : Coupon) : Bool :=
  if c.hasShadowRoot then
    match c.callToAction with
    | some cta => if cta.hasShadowRoot then (findActivationButton cta.buttons).isSome else false
    | none => false
  else false

/-- The activation script (lines 88-226) as a function from the inspected
page to the value it stores in window.activationResults.  The debugInfo
field attached in the missing-coupon-center branch is diagnostic only and
is not modelled. -/
def activationScript (p : Page) : ActivationResults :=
  match p.couponCenterShadow with
  | none =>
    { success := false, error := some "Coupon center not found",
      activated := 0, total := 0, alreadyActivated := false }
  | some shadow =>
    match shadow.publishedCoupons with
    | none =>
      { success := true, error := some "No coupons to activate",
        activated := 0, total := 0, alreadyActivated := true }
    | some coupons =>
      { success := true, error := none,
        activated := coupons.countP (fun c => couponClickAttempt c),
        total := coupons.length, alreadyActivated := false }

/-- Source line 127 comment: the coupon container is not found precisely
when all coupons are already activated, and the script then reports the
alreadyActivated outcome.  This predicate states that page shape: the
coupon center is present with a shadow root but the published-coupons
container is absent. -/
def allCouponsAlreadyActivated (p : Page) : Prop :=
  ∃ shadow, p.couponCenterShadow = some shadow ∧ shadow.publishedCoupons = none

/-! ## Wire values and result normalization (activate_coupons_for_partner, lines 244-308)

The Python side retrieves window.activationResultsJSON through pydoll and
parses it.  The retrieved value is modelled by three observed shapes: a
falsy value (None or empty, the "missing" case), a bare JSON string, and
the pydoll envelope dict nesting the JSON string under result.result.value.
A JSON string is embedded by the outcome of parsing it: either the parsed
activation-results record, or the message of the exception json.loads
raises on malformed text. -/

/-- The parsed Python dict as inspected through results.get: success and
alreadyActivated by truthiness (absent key reads falsy), activated and
total with default 0 applied at the use site, error with default applied
at the use site. -/
structure ParsedResults where
  success : Bool
  alreadyActivated : Bool
  activated : Option Nat
  total : Option Nat
  error : Option String
deriving DecidableEq, Repr

/-- Outcome of parsing a retrieved JSON payload string: the dict it
denotes, or the parse-exception message for malformed text. -/
inductive JsonPayload where
  | ok (r : ParsedResults)
  | malformed (msg : String)
deriving DecidableEq, Repr

/-- The value of results_json as returned by page.execute_script (line
245): falsy (missing), a bare JSON string, or the pydoll envelope object
with the string under the result.result.value path. -/
inductive Wire where
  | missing
  | bare (payload : JsonPayload)
  | envelope (payload : JsonPayload)
deriving DecidableEq, Repr

/-- Round trip of JSON.stringify (script lines 232-242) and json.loads:
every key the script set is present in the parsed dict, and the keys the
script left absent read back through their falsy or explicit defaults. -/
def stringifyResults (r : ActivationResults) : ParsedResults :=
  { success := r.success, alreadyActivated := r.alreadyActivated,
    activated := some r.activated, total := some r.total, error := r.error }

/-- Per-merchant outcome dict.  Keys absent from a given dict shape are
modelled by none: the no-partner_id outcome carries no partner_id,
activated, total, or alreadyActivated key, and failure outcomes carry no
activated, total, or alreadyActivated key. -/
structure Outcome where
  partner_name : String
  partner_id : Option String
  activated : Option Nat
  total : Option Nat
  success : Bool
  alreadyActivated : Option Bool
  error : Option String
deriving DecidableEq, Repr

/-- Lines 263-300: inspect the parsed results dict and build the outcome
dict, with the defaults of the corresponding results.get calls. -/
def processParsed (pn pid : String) (r : ParsedResults) : Outcome :=
  if r.success then
    { partner_name := pn, partner_id := some pid,
      activated := some (r.activated.getD 0), total := some (r.total.getD 0),
      success := true, alreadyActivated := some r.alreadyActivated, error := none }
  else
    { partner_name := pn, partner_id := some pid,
      activated := none, total := none, success := false,
      alreadyActivated := none, error := some (r.error.getD "Unknown error") }

/-- The outcome built in the except handler (lines 291-300): the exception
message becomes the error field. -/
def parseFailureOutcome (pn pid msg : String) : Outcome :=
  { partner_name := pn, partner_id := some pid, activated := none,
    total := none, success := false, alreadyActivated := none, error := some msg }

/-- Lines 248-308 of activate_coupons_for_partner: the retrieved value is
tested for truthiness; a dict with a result key has the JSON string
extracted from the result.result.value path, otherwise the value itself is
parsed; a parse exception is caught into a failure outcome; a falsy value
yields the fixed failure message. -/
def activateCouponsForPartner (pn pid : String) (results_json : Wire) : Outcome :=
  match results_json with
  | Wire.missing =>
    { partner_name := pn, partner_id := some pid, activated := none,
      total := none, success := false, alreadyActivated := none,
      error := some "Failed to get activation results" }
  | Wire.bare payload =>
    match payload with
    | JsonPayload.ok r => processParsed pn pid r
    | JsonPayload.malformed msg => parseFailureOutcome pn pid msg
  | Wire.envelope payload =>
    match payload with
    | JsonPayload.ok r => processParsed pn pid r
    | JsonPayload.malformed msg => parseFailureOutcome pn pid msg

/-- The value retrieved for a page after the activation script ran: the
script stores a result object on every branch, so the retrieval script
(lines 232-242) always serializes it. -/
def retrievedWire (p : Page) : Wire :=
  Wire.bare (JsonPayload.ok (stringifyResults (activationScript p)))

/-! ## Configuration, environment, and the run (PaybackActivator.run, lines 310-759)

A merchant entry of the YAML configuration is a dict read through
merchant.get, so both fields are optional; run reads the merchants list
through config.get with default [], so the configuration is modelled by
that list.  The environment record says, for each failable browser step,
whether the underlying channel raises (some message) or succeeds (none),
supplies the retrieved results_json per partner_id, and supplies the
timestamp string used in the evidence file names.  The model fixes
debug_mode and is_github_actions to false (they only add debug screenshots
and longer sleeps) and leaves the unconditionally-succeeding steps
(browser start, user-agent override, navigations, sleeps) implicit. -/

/-- An entry of the merchants list; name defaults to Unknown and
partner_id to the empty string at the use sites (lines 667-668). -/
structure Merchant where
  name : Option String
  partner_id : Option String
deriving DecidableEq, Repr

/-- The loaded configuration, reduced to the merchants list read at line
312; a missing or unparsable config file degrades to the empty list. -/
structure Config where
  merchants : List Merchant
deriving DecidableEq, Repr

/-- A browser-level effect performed by the run, in order. -/
inductive Event where
  | browserStart
  | nav (url : String)
  | screenshot (path : String)
  | savePageSource (path : String)
deriving DecidableEq, Repr

/-- The external environment of one run.  A some value in a step field is
the message of the exception that step raises; none means the step
succeeds.  wire gives the value retrieved at line 245 for each partner_id;
timestamp is the datetime string formatted at line 732. -/
structure Env where
  consentFail : Option String := none
  usernameStepFail : Option String := none
  continueStepFail : Option String := none
  passwordStepFail : Option String := none
  submitStepFail : Option String := none
  verifyStepFail : Option String := none
  wire : String → Wire := fun _ => Wire.missing
  screenshotFail : Option String := none
  pageSourceFail : Option String := none
  htmlSaveFail : Option String := none
  timestamp : String := ""

/-- The login page URL (line 379). -/
def loginUrl : String := "https://www.payback.de/login"

/-- The per-partner coupon listing URL (line 73); the evidence phase
reuses it with an empty partner_id (line 728). -/
def couponsUrl (pid : String) : String :=
  "https://www.payback.de/coupons?partnerId=" ++ pid

/-- The outcome dict appended at lines 674-680 for a merchant whose
partner_id is missing or empty: it has no partner_id, activated, total, or
alreadyActivated key. -/
def noPartnerOutcome (name : String) : Outcome :=
  { partner_name := name, partner_id := none, activated := none,
    total := none, success := false, alreadyActivated := none,
    error := some "No partner_id specified" }

/-- The merchant loop (lines 666-695): per merchant, either the immediate
no-partner_id failure with no navigation, or a navigation to the coupon
page of the partner followed by the activation and result processing.  Returns the
navigation events, the full outcome stream (one outcome per merchant, in
order), and activation_results (the outcomes of the merchants that were
actually processed, excluding the no-partner_id entries). -/
def merchantLoop (env : Env) : List Merchant → List Event × List Outcome × List Outcome
  | [] => ([], [], [])
  | m :: rest =>
    let name := m.name.getD "Unknown"
    let pid := m.partner_id.getD ""
    let r := merchantLoop env rest
    if pid = "" then
      (r.1, noPartnerOutcome name :: r.2.1, r.2.2)
    else
      let o := activateCouponsForPartner name pid (env.wire pid)
      (Event.nav (couponsUrl pid) :: r.1, o :: r.2.1, o :: r.2.2)

/-- The summary loop at lines 699-708: total_activated accumulates the
activated counts of the successful entries of activation_results. -/
def sumActivated : List Outcome → Nat
  | [] => 0
  | o :: rest => (if o.success then o.activated.getD 0 else 0) + sumActivated rest

/-- The companion accumulation of total counts at lines 699-708. -/
def sumAvailable : List Outcome → Nat
  | [] => 0
  | o :: rest => (if o.success then o.total.getD 0 else 0) + sumAvailable rest

/-- The dict returned by run.  Keys absent from the early-return dicts
(total_activated, total_available, screenshot_path, html_path) and the key
absent from the final dict (error) are modelled by none. -/
structure Summary where
  successful : List Outcome
  failed : List Outcome
  total_activated : Option Nat
  total_available : Option Nat
  error : Option String
  screenshot_path : Option String
  html_path : Option String
deriving DecidableEq, Repr

/-- The early-return dict of lines 314-318 for an empty merchants list. -/
def noMerchantsSummary : Summary :=
  { successful := [], failed := [], total_activated := none,
    total_available := none, error := some "No merchants configured",
    screenshot_path := none, html_path := none }

/-- The early-return dict of lines 653-659 when the login-verification
probe raises with message e. -/
def loginFailedSummary (e : String) : Summary :=
  { successful := [], failed := [], total_activated := none,
    total_available := none, error := some ("Login failed: " ++ e),
    screenshot_path := none, html_path := none }

/-- The evidence file names built at lines 732-738 from the timestamp. -/
def screenshotPath (ts : String) : String := "payback_coupons_" ++ ts ++ ".png"

/-- The page-markup dump file name built at line 738. -/
def htmlPath (ts : String) : String := "payback_coupons_" ++ ts ++ ".html"

/-- The dict returned at lines 752-759 on the main path: the outcome
stream partitioned by the success flag (lines 689-692), the totals over
activation_results, and the evidence paths. -/
def buildSummary (env : Env) (ms : List Merchant) : Summary :=
  let r := merchantLoop env ms
  { successful := r.2.1.filter (fun o => o.success),
    failed := r.2.1.filter (fun o => !o.success),
    total_activated := some (sumActivated r.2.2),
    total_available := some (sumAvailable r.2.2),
    error := none,
    screenshot_path := some (screenshotPath env.timestamp),
    html_path := some (htmlPath env.timestamp) }

/-- PaybackActivator.run (lines 310-759).  Steps guarded by try/except in
the source are the cookie-consent click (lines 386-393, failure logged and
the flow proceeds), the login-verification probe (lines 630-659, failure
returns the login-failed dict), and the page-markup file write (lines
742-747, failure logged and the flow proceeds); every other failable step
(the identifier entry, continue click, password entry and submit click
scripts, the evidence screenshot, and the page-source read) is unguarded,
so an exception there escapes run, modelled by Except.error.  The result
pairs the event trace with the outcome of the call. -/
def runActivator (cfg : Config) (env : Env) : List Event × Except String Summary :=
  if cfg.merchants.isEmpty then
    ([], Except.ok noMerchantsSummary)
  else
    let authEvents := [Event.browserStart, Event.nav loginUrl]
    if env.usernameStepFail.isSome then (authEvents, Except.error (env.usernameStepFail.getD ""))
    else if env.continueStepFail.isSome then (authEvents, Except.error (env.continueStepFail.getD ""))
    else if env.passwordStepFail.isSome then (authEvents, Except.error (env.passwordStepFail.getD ""))
    else if env.submitStepFail.isSome then (authEvents, Except.error (env.submitStepFail.getD ""))
    else if env.verifyStepFail.isSome then
      (authEvents, Except.ok (loginFailedSummary (env.verifyStepFail.getD "")))
    else
      let lr := merchantLoop env cfg.merchants
      let preEvidence := authEvents ++ lr.1 ++ [Event.nav (couponsUrl "")]
      if env.screenshotFail.isSome then
        (preEvidence, Except.error (env.screenshotFail.getD ""))
      else
        let shotEvents := preEvidence ++ [Event.screenshot (screenshotPath env.timestamp)]
        if env.pageSourceFail.isSome then
          (shotEvents, Except.error (env.pageSourceFail.getD ""))
        else
          let allEvents :=
            if env.htmlSaveFail.isSome then shotEvents
            else shotEvents ++ [Event.savePageSource (htmlPath env.timestamp)]
          (allEvents, Except.ok (buildSummary env cfg.merchants))

/-- Whether every authentication-phase step of run completes without an
exception (the consent click is excluded: its failure is caught at lines
392-393 and the flow proceeds regardless). -/
def authOk (env : Env) : Bool :=
  env.usernameStepFail.isNone && env.continueStepFail.isNone &&
    env.passwordStepFail.isNone && env.submitStepFail.isNone &&
    env.verifyStepFail.isNone

/-! ## Exit-code logic (activate.py, lines 55-92)

A credential is falsy when absent or empty.  The try block of main wraps
the whole run (and the notification); an exception escaping it is
modelled by passing an Except.error to the classification. -/

/-- Python truthiness of a credential obtained from the flag or the
environment variable: falsy when absent or the empty string (line 59). -/
def credIsFalsy (c : Option String) : Bool := c.getD "" == ""

/-- Lines 80-88: the exit code computed from the returned lists. -/
def exitFromResults (results : Summary) : Nat :=
  if results.failed.length > 0 ∧ results.successful.length = 0 then 1
  else if results.failed.length > 0 then 0
  else 0

/-- activate.py main (lines 55-92): exit 1 when either credential is
falsy; otherwise exit 1 when an exception escapes the try block, and
otherwise classify the returned lists. -/
def mainExit (username password : Option String) (tryOutcome : Except String Summary) : Nat :=
  if credIsFalsy username || credIsFalsy password then 1
  else
    match tryOutcome with
    | Except.ok results => exitFromResults results
    | Except.error _ => 1

/-- Whether the try-block outcome is a returned dict rather than an
escaped exception. -/
def isOkResult : Except String Summary → Bool
  | Except.ok _ => true
  | Except.error _ => false

/-- The number of configured merchants that have a partner_id, following
the wording of the spec sentence about the partition sizes; kept separate
from the source embedding so the two counts can be compared. -/
def merchantsWithPartnerId (cfg : Config) : Nat :=
  (cfg.merchants.filter (fun m => !(m.partner_id.getD "" == ""))).length

/-- A configured merchant with a partner_id, for concrete evaluations. -/
def sampleMerchant : Merchant := Merchant.mk (some "REWE") (some "433")

/-- A configuration with one fully configured merchant. -/
def sampleCfg : Config := Config.mk [sampleMerchant]

/-- A retrieved payload parsing to a successful activation of 3 out of 5
coupons. -/
def sampleWire : Wire :=
  Wire.bare (JsonPayload.ok (ParsedResults.mk true false (some 3) (some 5) none))

/-- An environment in which every browser step succeeds and every partner
page reports the sample payload. -/
def sampleEnv : Env := { wire := fun _ => sampleWire }

/-- A configuration whose single merchant has no partner_id. -/
def noPidCfg : Config := Config.mk [Merchant.mk (some "EDEKA") none]

/-- An environment in which the identifier-entry script raises. -/
def userFailEnv : Env := { usernameStepFail := some "username script failed" }

/-- An environment in which the evidence screenshot raises. -/
def shotFailEnv : Env := { sampleEnv with screenshotFail := some "screenshot failed" }

/-! ## Helper lemmas -/

theorem merchantLoop_congr (e1 e2 : Env) (hw : e1.wire = e2.wire) :
    ∀ ms : List Merchant, merchantLoop e1 ms = merchantLoop e2 ms := by
  intro ms
  induction ms with
  | nil => rfl
  | cons m rest ih => simp [merchantLoop, hw, ih]

theorem buildSummary_congr (e1 e2 : Env) (hw : e1.wire = e2.wire)
    (ht : e1.timestamp = e2.timestamp) (ms : List Merchant) :
    buildSummary e1 ms = buildSummary e2 ms := by
  simp [buildSummary, merchantLoop_congr e1 e2 hw ms, ht]

theorem merchantLoop_length (env : Env) :
    ∀ ms : List Merchant, (merchantLoop env ms).2.1.length = ms.length := by
  intro ms
  induction ms with
  | nil => rfl
  | cons m rest ih =>
    by_cases h : m.partner_id.getD "" = "" <;> simp [merchantLoop, h, ih]

theorem sumActivated_filter_success (l : List Outcome) :
    sumActivated (l.filter (fun o => o.success)) = sumActivated l := by
  induction l with
  | nil => rfl
  | cons o rest ih =>
    by_cases h : o.success <;> simp [List.filter, h, sumActivated, ih]

theorem merchantLoop_filter_success (env : Env) :
    ∀ ms : List Merchant,
      (merchantLoop env ms).2.1.filter (fun o => o.success) =
        (merchantLoop env ms).2.2.filter (fun o => o.success) := by
  intro ms
  induction ms with
  | nil => rfl
  | cons m rest ih =>
    by_cases h : m.partner_id.getD "" = "" <;>
      simp [merchantLoop, h, List.filter, noPartnerOutcome, ih]

theorem length_filter_success_add (l : List Outcome) :
    (l.filter (fun o => o.success)).length +
      (l.filter (fun o => !o.success)).length = l.length := by
  induction l with
  | nil => rfl
  | cons o rest ih =>
    by_cases h : o.success <;> simp [List.filter, h, ih] <;> omega

theorem mem_filter_success_partition (l : List Outcome) (o : Outcome) (h : o ∈ l) :
    (o ∈ l.filter (fun x => x.success) ∧ o ∉ l.filter (fun x => !x.success)) ∨
      (o ∈ l.filter (fun x => !x.success) ∧ o ∉ l.filter (fun x => x.success)) := by
  by_cases hs : o.success
  · left
    refine ⟨List.mem_filter.2 ⟨h, hs⟩, fun hmem => ?_⟩
    have := (List.mem_filter.1 hmem).2
    simp [hs] at this
  · right
    refine ⟨List.mem_filter.2 ⟨h, by simp [hs]⟩, fun hmem => ?_⟩
    have := (List.mem_filter.1 hmem).2
    simp [hs] at this

theorem authOk_fields (env : Env) (hauth : authOk env = true) :
    env.usernameStepFail = none ∧ env.continueStepFail = none ∧
      env.passwordStepFail = none ∧ env.submitStepFail = none ∧
      env.verifyStepFail = none := by
  have h' := hauth
  simp [authOk, Option.isNone_iff_eq_none, Bool.and_eq_true] at h'
  exact ⟨h'.1.1.1.1, h'.1.1.1.2, h'.1.1.2, h'.1.2, h'.2⟩

theorem runActivator_ok_inv (cfg : Config) (env : Env) (s : Summary)
    (hauth : authOk env = true) (h : (runActivator cfg env).2 = Except.ok s) :
    (cfg.merchants = [] ∧ s = noMerchantsSummary) ∨
      (cfg.merchants ≠ [] ∧ s = buildSummary env cfg.merchants) := by
  obtain ⟨h1, h2, h3, h4, h5⟩ := authOk_fields env hauth
  by_cases hE : cfg.merchants.isEmpty
  · left
    refine ⟨List.isEmpty_iff.1 hE, ?_⟩
    simp [runActivator, hE] at h
    exact h.symm
  · right
    refine ⟨fun hnil => hE (by simp [hnil]), ?_⟩
    simp only [runActivator, hE, if_false, h1, h2, h3, h4, h5,
      Option.isSome_none, Bool.false_eq_true] at h
    cases hS : env.screenshotFail with
    | some e => simp [hS] at h
    | none =>
      cases hP : env.pageSourceFail with
      | some e => simp [hS, hP] at h
      | none =>
        simp [hS, hP] at h
        exact h.symm

theorem runActivator_ok_cases (cfg : Config) (env : Env) (s : Summary)
    (h : (runActivator cfg env).2 = Except.ok s) :
    (cfg.merchants = [] ∧ s = noMerchantsSummary) ∨
      (∃ e, s = loginFailedSummary e) ∨
      (cfg.merchants ≠ [] ∧ s = buildSummary env cfg.merchants) := by
  by_cases hE : cfg.merchants.isEmpty
  · left
    refine ⟨List.isEmpty_iff.1 hE, ?_⟩
    simp [runActivator, hE] at h
    exact h.symm
  · have hne : cfg.merchants ≠ [] := fun hnil => hE (by simp [hnil])
    cases h1 : env.usernameStepFail with
    | some e => simp [runActivator, hE, h1] at h
    | none =>
      cases h2 : env.continueStepFail with
      | some e => simp [runActivator, hE, h1, h2] at h
      | none =>
        cases h3 : env.passwordStepFail with
        | some e => simp [runActivator, hE, h1, h2, h3] at h
        | none =>
          cases h4 : env.submitStepFail with
          | some e => simp [runActivator, hE, h1, h2, h3, h4] at h
          | none =>
            cases h5 : env.verifyStepFail with
            | some e =>
              right; left
              refine ⟨e, ?_⟩
              simp [runActivator, hE, h1, h2, h3, h4, h5] at h
              exact h.symm
            | none =>
              right; right
              refine ⟨hne, ?_⟩
              cases hS : env.screenshotFail with
              | some e => simp [runActivator, hE, h1, h2, h3, h4, h5, hS] at h
              | none =>
                cases hP : env.pageSourceFail with
                | some e => simp [runActivator, hE, h1, h2, h3, h4, h5, hS, hP] at h
                | none =>
                  simp [runActivator, hE, h1, h2, h3, h4, h5, hS, hP] at h
                  exact h.symm

/-! ## Claim theorems -/

/-- Claim C1: the process exit code is 0 exactly when credentials are
present, no exception escaped, and the failed list is empty or both lists
are non-empty; it is 1 exactly when the failed list is non-empty while the
successful list is empty, an exception escaped the try block, or a
credential is absent. -/
theorem exit_code_classification (u p : Option String) (t : Except String Summary) :
    (mainExit u p t = 1 ↔
      (credIsFalsy u || credIsFalsy p) = true ∨ (∃ e, t = Except.error e) ∨
        ∃ s, t = Except.ok s ∧ s.failed ≠ [] ∧ s.successful = []) ∧
    (mainExit u p t = 0 ↔
      (credIsFalsy u || credIsFalsy p) = false ∧
        ∃ s, t = Except.ok s ∧
          (s.failed = [] ∨ (s.failed ≠ [] ∧ s.successful ≠ []))) := by
  by_cases hc : (credIsFalsy u || credIsFalsy p) = true
  · constructor
    · simp [mainExit, hc]
    · simp [mainExit, hc]
  · cases t with
    | error e =>
      constructor
      · simp [mainExit, hc]
      · simp [mainExit, hc]
    | ok s =>
      have hcf : (credIsFalsy u || credIsFalsy p) = false := by
        cases h : (credIsFalsy u || credIsFalsy p) <;> simp [h] at hc ⊢
      by_cases hf : s.failed = []
      · constructor
        · simp [mainExit, hcf, exitFromResults, hf]
        · simp [mainExit, hcf, exitFromResults, hf]
      · have hfl : s.failed.length > 0 := List.length_pos.2 hf
        by_cases hs : s.successful = []
        · constructor
          · simp [mainExit, hcf, exitFromResults, hfl, hf, hs,
              List.length_eq_zero.2 hs]
          · simp [mainExit, hcf, exitFromResults, hfl, hf, hs,
              List.length_eq_zero.2 hs]
        · have hsl : s.successful.length ≠ 0 := by
            intro h0
            exact hs (List.length_eq_zero.1 h0)
          constructor
          · simp [mainExit, hcf, exitFromResults, hfl, hf, hs, hsl]
          · simp [mainExit, hcf, exitFromResults, hfl, hf, hs, hsl]

/-- Claim C4: a missing activation payload yields a failed outcome with
the fixed message, a malformed payload yields a failed outcome carrying
the parse-exception text (under either wire shape), and the merchant loop
always continues with the remaining merchants, producing exactly one
outcome for the current merchant. -/
theorem payload_error_outcomes (pn pid msg : String) (env : Env)
    (m : Merchant) (rest : List Merchant) :
    (activateCouponsForPartner pn pid Wire.missing).success = false ∧
    (activateCouponsForPartner pn pid Wire.missing).error =
      some "Failed to get activation results" ∧
    activateCouponsForPartner pn pid (Wire.bare (JsonPayload.malformed msg)) =
      parseFailureOutcome pn pid msg ∧
    activateCouponsForPartner pn pid (Wire.envelope (JsonPayload.malformed msg)) =
      parseFailureOutcome pn pid msg ∧
    (parseFailureOutcome pn pid msg).success = false ∧
    (parseFailureOutcome pn pid msg).error = some msg ∧
    (merchantLoop env (m :: rest)).2.1.length = (merchantLoop env rest).2.1.length + 1 ∧
    (merchantLoop env (m :: rest)).2.1.tail = (merchantLoop env rest).2.1 := by
  refine ⟨rfl, rfl, rfl, rfl, rfl, rfl, ?_, ?_⟩ <;>
    by_cases h : m.partner_id.getD "" = "" <;> simp [merchantLoop, h]

/-- Claim C5: a merchant whose partner_id is missing or empty contributes
the fixed no-partner_id failure outcome to the stream and no navigation
event. -/
theorem no_partner_id_rejected (env : Env) (m : Merchant) (rest : List Merchant)
    (h : m.partner_id.getD "" = "") :
    (merchantLoop env (m :: rest)).2.1 =
      noPartnerOutcome (m.name.getD "Unknown") :: (merchantLoop env rest).2.1 ∧
    (merchantLoop env (m :: rest)).1 = (merchantLoop env rest).1 ∧
    (noPartnerOutcome (m.name.getD "Unknown")).success = false ∧
    (noPartnerOutcome (m.name.getD "Unknown")).error =
      some "No partner_id specified" := by
  refine ⟨?_, ?_, rfl, rfl⟩ <;> simp [merchantLoop, h]

/-- Witness for no_partner_id_rejected at a concrete merchant without a
partner_id. -/
theorem no_partner_id_rejected_witness :
    (Merchant.mk (some "EDEKA") none).partner_id.getD "" = "" ∧
    (merchantLoop {} [Merchant.mk (some "EDEKA") none]).2.1 =
      noPartnerOutcome "EDEKA" :: (merchantLoop {} []).2.1 ∧
    (merchantLoop {} [Merchant.mk (some "EDEKA") none]).1 = (merchantLoop {} []).1 ∧
    (noPartnerOutcome "EDEKA").success = false ∧
    (noPartnerOutcome "EDEKA").error = some "No partner_id specified" :=
  ⟨rfl, no_partner_id_rejected {} (Merchant.mk (some "EDEKA") none) [] rfl⟩

/-- Claim C7: the envelope wire shape and the bare-string wire shape of
the same payload produce the same outcome record. -/
theorem wire_shape_agreement (pn pid : String) (payload : JsonPayload) :
    activateCouponsForPartner pn pid (Wire.envelope payload) =
      activateCouponsForPartner pn pid (Wire.bare payload) := by
  cases payload <;> rfl

/-- Claim C9: against a page on which every coupon is already activated
(the published-coupons container is absent, the shape the source equates
with that state), the activation script reports success with zero
activations and the alreadyActivated marker, and the processed outcome is
a success record with activated count 0 and already_activated true, not an
error outcome. -/
theorem already_activated_not_error (p : Page) (pn pid : String)
    (h : allCouponsAlreadyActivated p) :
    activationScript p =
      { success := true, error := some "No coupons to activate",
        activated := 0, total := 0, alreadyActivated := true } ∧
    activateCouponsForPartner pn pid (retrievedWire p) =
      { partner_name := pn, partner_id := some pid, activated := some 0,
        total := some 0, success := true, alreadyActivated := some true,
        error := none } := by
  obtain ⟨shadow, h1, h2⟩ := h
  constructor
  · simp [activationScript, h1, h2]
  · simp [retrievedWire, activationScript, h1, h2, stringifyResults,
      activateCouponsForPartner, processParsed]

/-- Witness for already_activated_not_error at a concrete page whose
coupon center is present but whose published-coupons container is
absent. -/
theorem already_activated_not_error_witness :
    allCouponsAlreadyActivated (Page.mk (some (CouponCenterShadow.mk none))) ∧
    activateCouponsForPartner "dm" "13"
        (retrievedWire (Page.mk (some (CouponCenterShadow.mk none)))) =
      { partner_name := "dm", partner_id := some "13", activated := some 0,
        total := some 0, success := true, alreadyActivated := some true,
        error := none } :=
  ⟨⟨CouponCenterShadow.mk none, rfl, rfl⟩,
    (already_activated_not_error (Page.mk (some (CouponCenterShadow.mk none)))
      "dm" "13" ⟨CouponCenterShadow.mk none, rfl, rfl⟩).2⟩

/-- Claim C10: with zero configured merchants the run returns immediately
with empty lists and the fixed error string, performs no browser-level
effect at all, and the subsequent exit-code classification takes the
all-successful branch, exiting 0 whenever the credentials were present. -/
theorem no_merchants_early_return (env : Env) (u p : Option String) :
    runActivator (Config.mk []) env = ([], Except.ok noMerchantsSummary) ∧
    noMerchantsSummary.successful = [] ∧
    noMerchantsSummary.failed = [] ∧
    noMerchantsSummary.error = some "No merchants configured" ∧
    exitFromResults noMerchantsSummary = 0 ∧
    (credIsFalsy u = false → credIsFalsy p = false →
      mainExit u p (Except.ok noMerchantsSummary) = 0) := by
  refine ⟨rfl, rfl, rfl, rfl, rfl, fun hu hp => ?_⟩
  simp [mainExit, hu, hp, exitFromResults, noMerchantsSummary]

/-- Witness for no_merchants_early_return with concrete credentials. -/
theorem no_merchants_early_return_witness :
    credIsFalsy (some "user") = false ∧ credIsFalsy (some "pw") = false ∧
    runActivator (Config.mk []) {} = ([], Except.ok noMerchantsSummary) ∧
    mainExit (some "user") (some "pw") (Except.ok noMerchantsSummary) = 0 := by
  refine ⟨rfl, rfl, ?_, ?_⟩
  · exact (no_merchants_early_return {} (some "user") (some "pw")).1
  · exact (no_merchants_early_return {} (some "user") (some "pw")).2.2.2.2.2 rfl rfl

/-- Claim C2: whenever run returns a dict, its total_activated equals the
sum of the activated counts over the successful list, and every outcome of
the per-merchant stream lands in exactly one of the successful and failed
lists. -/
theorem run_total_activated_and_partition (cfg : Config) (env : Env) (s : Summary)
    (hauth : authOk env = true) (h : (runActivator cfg env).2 = Except.ok s) :
    s.total_activated.getD 0 = sumActivated s.successful ∧
    ∀ o ∈ (merchantLoop env cfg.merchants).2.1,
      (o ∈ s.successful ∧ o ∉ s.failed) ∨ (o ∈ s.failed ∧ o ∉ s.successful) := by
  rcases runActivator_ok_inv cfg env s hauth h with ⟨hnil, hs⟩ | ⟨hne, hs⟩
  · subst hs
    simp [noMerchantsSummary, sumActivated, hnil, merchantLoop]
  · subst hs
    constructor
    · simp only [buildSummary, Option.getD_some]
      rw [merchantLoop_filter_success env cfg.merchants, sumActivated_filter_success]
    · intro o ho
      simpa only [buildSummary] using
        mem_filter_success_partition (merchantLoop env cfg.merchants).2.1 o ho

/-- Witness for run_total_activated_and_partition at the sample
configuration, whose single merchant activates 3 of 5 coupons. -/
theorem run_total_activated_and_partition_witness :
    authOk sampleEnv = true ∧
    (runActivator sampleCfg sampleEnv).2 =
      Except.ok (buildSummary sampleEnv sampleCfg.merchants) ∧
    ((buildSummary sampleEnv sampleCfg.merchants).total_activated.getD 0 =
        sumActivated (buildSummary sampleEnv sampleCfg.merchants).successful ∧
      ∀ o ∈ (merchantLoop sampleEnv sampleCfg.merchants).2.1,
        (o ∈ (buildSummary sampleEnv sampleCfg.merchants).successful ∧
            o ∉ (buildSummary sampleEnv sampleCfg.merchants).failed) ∨
          (o ∈ (buildSummary sampleEnv sampleCfg.merchants).failed ∧
            o ∉ (buildSummary sampleEnv sampleCfg.merchants).successful)) :=
  ⟨rfl, rfl, run_total_activated_and_partition sampleCfg sampleEnv
    (buildSummary sampleEnv sampleCfg.merchants) rfl rfl⟩

/-- Claim C6 (amended): whenever run returns a dict without an error
entry (the merchant loop completed), the successful and failed lists
together hold exactly one outcome per configured merchant, partner_id or
not — not merely per merchant with a partner_id; whenever the returned
dict carries an error entry (no merchants configured, or the
login-verification probe failed), both lists are empty regardless of the
merchant count. -/
theorem partition_size_characterization (cfg : Config) (env : Env) (s : Summary)
    (h : (runActivator cfg env).2 = Except.ok s) :
    (s.error = none → s.successful.length + s.failed.length = cfg.merchants.length) ∧
    (s.error ≠ none → s.successful = [] ∧ s.failed = []) := by
  rcases runActivator_ok_cases cfg env s h with ⟨hnil, hs⟩ | ⟨e, hs⟩ | ⟨hne, hs⟩
  · subst hs
    refine ⟨fun herr => ?_, fun _ => ⟨rfl, rfl⟩⟩
    simp [noMerchantsSummary] at herr
  · subst hs
    refine ⟨fun herr => ?_, fun _ => ⟨rfl, rfl⟩⟩
    simp [loginFailedSummary] at herr
  · subst hs
    refine ⟨fun _ => ?_, fun herr => ?_⟩
    · simp only [buildSummary]
      rw [length_filter_success_add, merchantLoop_length]
    · simp [buildSummary] at herr

/-- Witness for partition_size_characterization at the sample
configuration, whose returned dict has no error entry. -/
theorem partition_size_characterization_witness :
    (runActivator sampleCfg sampleEnv).2 =
      Except.ok (buildSummary sampleEnv sampleCfg.merchants) ∧
    (buildSummary sampleEnv sampleCfg.merchants).error = none ∧
    (buildSummary sampleEnv sampleCfg.merchants).successful.length +
        (buildSummary sampleEnv sampleCfg.merchants).failed.length =
      sampleCfg.merchants.length :=
  ⟨rfl, rfl, (partition_size_characterization sampleCfg sampleEnv
    (buildSummary sampleEnv sampleCfg.merchants) rfl).1 rfl⟩

/-- Counterexample to claim C6 as stated: a run over one merchant without
a partner_id returns one failed outcome, so the partition holds 1 outcome
while 0 merchants have a partner_id. -/
theorem partition_size_cex :
    (runActivator noPidCfg ({} : Env)).2 =
      Except.ok (buildSummary ({} : Env) noPidCfg.merchants) ∧
    (buildSummary ({} : Env) noPidCfg.merchants).successful.length +
        (buildSummary ({} : Env) noPidCfg.merchants).failed.length = 1 ∧
    merchantsWithPartnerId noPidCfg = 0 ∧
    ¬((buildSummary ({} : Env) noPidCfg.merchants).successful.length +
          (buildSummary ({} : Env) noPidCfg.merchants).failed.length =
        merchantsWithPartnerId noPidCfg) := by
  refine ⟨rfl, rfl, rfl, by decide⟩

/-- Counterexample to claim C3 as stated: when the identifier-entry script
raises, run does not catch the failure and return an empty aggregate; the
exception escapes run. -/
theorem auth_step_uncaught_cex :
    (runActivator sampleCfg userFailEnv).2 =
      Except.error "username script failed" ∧
    isOkResult (runActivator sampleCfg userFailEnv).2 = false :=
  ⟨rfl, rfl⟩

/-- Claim C3 (amended): only the login-verification probe is caught, and
its failure aborts the run with an empty aggregate carrying the explicit
Login failed error and no merchant navigation; failures of the identifier
entry, continue click, password entry, or submit click propagate as
unrecovered exceptions, so no aggregate is returned (and no merchant
activation is attempted either); a consent-handling failure is caught but
the flow proceeds unchanged. -/
theorem auth_failure_handling (cfg : Config) (env : Env) (e : String)
    (hne : cfg.merchants ≠ []) :
    (env.usernameStepFail = some e →
      runActivator cfg env =
        ([Event.browserStart, Event.nav loginUrl], Except.error e)) ∧
    (env.usernameStepFail = none → env.continueStepFail = some e →
      runActivator cfg env =
        ([Event.browserStart, Event.nav loginUrl], Except.error e)) ∧
    (env.usernameStepFail = none → env.continueStepFail = none →
      env.passwordStepFail = some e →
      runActivator cfg env =
        ([Event.browserStart, Event.nav loginUrl], Except.error e)) ∧
    (env.usernameStepFail = none → env.continueStepFail = none →
      env.passwordStepFail = none → env.submitStepFail = some e →
      runActivator cfg env =
        ([Event.browserStart, Event.nav loginUrl], Except.error e)) ∧
    (env.usernameStepFail = none → env.continueStepFail = none →
      env.passwordStepFail = none → env.submitStepFail = none →
      env.verifyStepFail = some e →
      runActivator cfg env =
        ([Event.browserStart, Event.nav loginUrl],
          Except.ok (loginFailedSummary e))) ∧
    (∀ x, runActivator cfg { env with consentFail := x } =
      runActivator cfg { env with consentFail := none }) := by
  have hE : cfg.merchants.isEmpty = false := by
    cases hM : cfg.merchants.isEmpty
    · rfl
    · exact absurd (List.isEmpty_iff.1 hM) hne
  refine ⟨fun h1 => ?_, fun h1 h2 => ?_, fun h1 h2 h3 => ?_,
    fun h1 h2 h3 h4 => ?_, fun h1 h2 h3 h4 h5 => ?_, fun x => ?_⟩
  · simp [runActivator, hE, h1]
  · simp [runActivator, hE, h1, h2]
  · simp [runActivator, hE, h1, h2, h3]
  · simp [runActivator, hE, h1, h2, h3, h4]
  · simp [runActivator, hE, h1, h2, h3, h4, h5]
  · simp [runActivator, hE,
      merchantLoop_congr { env with consentFail := x } env rfl,
      merchantLoop_congr { env with consentFail := none } env rfl,
      buildSummary_congr { env with consentFail := x } env rfl rfl,
      buildSummary_congr { env with consentFail := none } env rfl rfl]

/-- Witness for auth_failure_handling at the sample configuration and the
environment whose identifier-entry script raises. -/
theorem auth_failure_handling_witness :
    sampleCfg.merchants ≠ [] ∧
    userFailEnv.usernameStepFail = some "username script failed" ∧
    runActivator sampleCfg userFailEnv =
      ([Event.browserStart, Event.nav loginUrl],
        Except.error "username script failed") :=
  ⟨by decide, rfl,
    (auth_failure_handling sampleCfg userFailEnv "username script failed"
      (by decide)).1 rfl⟩

/-- Counterexample to claim C8 as stated: when the evidence screenshot
raises, the exception escapes run, the partition is lost, and the process
exit classification flips from 0 to 1. -/
theorem screenshot_failure_cex :
    (runActivator sampleCfg shotFailEnv).2 = Except.error "screenshot failed" ∧
    isOkResult (runActivator sampleCfg shotFailEnv).2 = false ∧
    mainExit (some "user") (some "pw") (runActivator sampleCfg shotFailEnv).2 = 1 ∧
    (runActivator sampleCfg sampleEnv).2 =
      Except.ok (buildSummary sampleEnv sampleCfg.merchants) ∧
    mainExit (some "user") (some "pw") (runActivator sampleCfg sampleEnv).2 = 0 := by
  refine ⟨rfl, rfl, rfl, rfl, by decide⟩

/-- Claim C8 (amended): a failure while saving the page-markup dump is
caught and changes nothing about the returned result, but a failure of the
screenshot capture (or of the page-source read) propagates as an
unrecovered exception that aborts the run. -/
theorem evidence_capture_best_effort (cfg : Config) (env : Env) (e : String) :
    (∀ x y, (runActivator cfg { env with htmlSaveFail := x }).2 =
      (runActivator cfg { env with htmlSaveFail := y }).2) ∧
    (cfg.merchants ≠ [] → authOk env = true → env.screenshotFail = some e →
      (runActivator cfg env).2 = Except.error e) ∧
    (cfg.merchants ≠ [] → authOk env = true → env.screenshotFail = none →
      env.pageSourceFail = some e → (runActivator cfg env).2 = Except.error e) := by
  refine ⟨fun x y => ?_, fun hne hauth hS => ?_, fun hne hauth hS hP => ?_⟩
  · by_cases hE : cfg.merchants.isEmpty
    · simp [runActivator, hE]
    · simp only [runActivator, hE, Bool.false_eq_true, if_false,
        merchantLoop_congr { env with htmlSaveFail := x } env rfl,
        merchantLoop_congr { env with htmlSaveFail := y } env rfl,
        buildSummary_congr { env with htmlSaveFail := x } env rfl rfl,
        buildSummary_congr { env with htmlSaveFail := y } env rfl rfl]
      split_ifs <;> rfl
  · obtain ⟨h1, h2, h3, h4, h5⟩ := authOk_fields env hauth
    have hE : cfg.merchants.isEmpty = false := by
      cases hM : cfg.merchants.isEmpty
      · rfl
      · exact absurd (List.isEmpty_iff.1 hM) hne
    simp [runActivator, hE, h1, h2, h3, h4, h5, hS]
  · obtain ⟨h1, h2, h3, h4, h5⟩ := authOk_fields env hauth
    have hE : cfg.merchants.isEmpty = false := by
      cases hM : cfg.merchants.isEmpty
      · rfl
      · exact absurd (List.isEmpty_iff.1 hM) hne
    simp [runActivator, hE, h1, h2, h3, h4, h5, hS, hP]

/-- Witness for evidence_capture_best_effort: the markup-dump failure is
invisible in the result, and a concrete screenshot failure escapes. -/
theorem evidence_capture_best_effort_witness :
    sampleCfg.merchants ≠ [] ∧
    authOk shotFailEnv = true ∧
    shotFailEnv.screenshotFail = some "screenshot failed" ∧
    (runActivator sampleCfg
        { sampleEnv with htmlSaveFail := some "disk full" }).2 =
      (runActivator sampleCfg { sampleEnv with htmlSaveFail := none }).2 ∧
    (runActivator sampleCfg shotFailEnv).2 = Except.error "screenshot failed" :=
  ⟨by decide, rfl, rfl,
    (evidence_capture_best_effort sampleCfg sampleEnv "screenshot failed").1
      (some "disk full") none,
    (evidence_capture_best_effort sampleCfg shotFailEnv "screenshot failed").2.1
      (by decide) rfl rfl⟩
